import Mathlib

/-!
Shallow embedding of `freeagent.py`, a Yahoo fantasy-basketball free-agent
claiming bot.  Pure decision logic is translated into Lean functions; the
network, the wall clock and the filesystem are passed in explicitly as
environment parameters (functions from an iteration counter to the value the
external world would produce at that iteration).  Python exceptions are
modelled with `Except`; an unbound local variable read is modelled as a
`NameError` value; a missing dictionary key as a `KeyError` string.
-/

namespace FreeAgent

/-- A Python dictionary with string keys and string values, modelled as an
association list; iteration order is irrelevant to the claims. -/
abbrev Dict := List (String × String)

/-- `d[k]` on a Python dict: the first binding of `k`, or a `KeyError`. -/
def dictGet (d : Dict) (k : String) : Except String String :=
  match d.find? (fun kv => kv.1 == k) with
  | some kv => Except.ok kv.2
  | none => Except.error ("KeyError: " ++ k)

/-- Whether `pat` occurs as a contiguous run inside the character list. -/
def strContainsList (pat : List Char) : List Char → Bool
  | [] => pat.isEmpty
  | c :: rest => pat.isPrefixOf (c :: rest) || strContainsList pat rest

/-- Python's `pat in s` substring test on strings. -/
def strContains (s pat : String) : Bool :=
  strContainsList pat.toList s.toList

/-- An HTTP response as the code reads it: status code and body text. -/
structure HttpResp where
  status_code : Int
  text : String
deriving DecidableEq

/-- The Python exceptions `make_request` can raise: the explicit
`raise Exception(resp.text)` and the implicit `NameError` from reading a
local variable that was never assigned. -/
inductive PyError where
  | exn (msg : String)
  | nameError (name : String)
deriving DecidableEq

/-- `YahooApi.make_request` (freeagent.py lines 75-92).  `postResp` is the
response `requests.post` would return, `getResp` the one `requests.get`
would return.  The source binds the POST response to the local `resp`
but, in the GET branch, calls `requests.get(url, headers=headers)` without
assigning the result, so `resp` stays unbound; the subsequent
`resp.status_code` read raises `NameError`.  We model the local `resp` as an
`Option HttpResp` that is `none` exactly when never assigned. -/
def make_request (is_post : Bool) (postResp _getResp : HttpResp) :
    Except PyError HttpResp :=
  let resp : Option HttpResp := if is_post then some postResp else none
  match resp with
  | none => Except.error (PyError.nameError "resp")
  | some r =>
    if r.status_code < 200 ∨ 300 ≤ r.status_code then
      Except.error (PyError.exn r.text)
    else
      Except.ok r

/-- A `datetime.datetime` reading, split into the date part (`day`, an epoch
day index: `now.year/month/day` only ever feed the constructors of
`three_am` and `seven_am`, which reuse `now`'s own date) and the
time-of-day in whole seconds (`tod`, in `[0, 86400)`; the source compares
and subtracts datetimes at whole-second granularity for the claims'
inputs). -/
structure PyDateTime where
  day : Int
  tod : Int
deriving DecidableEq

/-- Total seconds of a datetime reading. -/
def toSecs (d : PyDateTime) : Int := d.day * 86400 + d.tod

/-- The `.seconds` attribute of a Python `timedelta` built from a difference
of `diff` whole seconds: Python normalises so that `.seconds` is always in
`[0, 86400)`, i.e. the mathematical remainder mod 86400. -/
def td_seconds (diff : Int) : Int := diff % 86400

/-- The blackout-window computation at the top of `add_until_done`
(freeagent.py lines 153-164): `three_am` is 02:59:30 and `seven_am` is
07:00:00 of `now`'s own date; outside the open interval
`(three_am, seven_am)` the code computes a sleep until 02:59:30 (same day
if `now` is earlier, next day otherwise); inside it the sleep is 0. -/
def secs_until_3 (now : PyDateTime) : Int :=
  let three_am : Int := now.day * 86400 + (2 * 3600 + 59 * 60 + 30)
  let seven_am : Int := now.day * 86400 + 7 * 3600
  let n : Int := toSecs now
  if ¬ (three_am < n ∧ n < seven_am) then
    if n < three_am then td_seconds (three_am - n)
    else td_seconds (three_am + 86400 - n)
  else 0

/-- One player entry of the decoded ownership response: the fields the code
reads directly (`player['player_key']`, `player['name']['full']`) plus the
`ownership` sub-dictionary from which `ownership_type` and
`owner_team_key` are looked up (these lookups can raise `KeyError`). -/
structure Player where
  player_key : String
  name_full : String
  ownership : Dict
deriving DecidableEq

/-- The dual-shape `data['fantasy_content']['league']['players']['player']`
node: `xmltodict` yields a single scalar entry for one matched player and a
sequence for several; the code branches on `isinstance(player_obj, list)`. -/
inductive PlayerNode where
  | scalar (p : Player)
  | seq (ps : List Player)

/-- `YahooApi.player_info` (freeagent.py lines 94-104) after the network
read and `xmltodict.parse`: yields `(player_key, name.full, player)` for
each entry, iterating when the node is a sequence and yielding the single
entry when it is a scalar. -/
def player_info (node : PlayerNode) : List (String × String × Player) :=
  match node with
  | PlayerNode.seq ps => ps.map (fun player => (player.player_key, player.name_full, player))
  | PlayerNode.scalar p => [(p.player_key, p.name_full, p)]

/-- The externally observable steps one iteration of `add_until_done`
performs, in order: a `time.sleep` call (with its argument, 0 when the
clock is inside the 3am-7am window), the ownership poll, and the claim
write (`caller.add_player`). -/
inductive Action where
  | sleepTimer (n : Int)
  | pollPlayer
  | claimWrite
deriving DecidableEq

/-- How a (fuel-bounded) run of the `add_until_done` loop ends: a Python
`return` with the given string, an uncaught exception, or fuel exhaustion
(the source loop itself is unbounded). -/
inductive LoopResult where
  | returned (s : String)
  | exn (e : String)
  | outOfFuel
deriving DecidableEq

/-- `add_until_done` (freeagent.py lines 151-187), fuel-bounded.  The
external world is passed in as functions of the iteration counter `i`:
`clock i` is what `datetime.datetime.now()` returns at iteration `i`,
`polls i` the player record the ownership poll decodes (the source fetches
it with `next(caller.player_id(league_id, player_add))`; the client defines
the generator under the name `player_info`), and `adds i` the outcome of
the `caller.add_player` write at iteration `i` (`none` = the write
returned normally, `some e` = it raised an exception with text `e`).
Returns the ordered trace of observable actions and how the run ended.
Per iteration the source: sleeps `secs_until_3`, polls, reads
`player_info['ownership']['ownership_type']` and branches — `"waivers"`:
sleep 10 and `continue`; `"team"`: return `'owned'` if
`owner_team_key == team_id` else `'taken'`; anything else: call
`add_player`, and on exception sleep 1 and `continue`.  A successful
`add_player` call is followed by no `return` or `continue`: control falls
out of the `try` and the `while` loop runs again. -/
def add_until_done (team_id : String) (clock : Nat → PyDateTime)
    (polls : Nat → Player) (adds : Nat → Option String) :
    Nat → Nat → List Action × LoopResult
  | 0, _ => ([], LoopResult.outOfFuel)
  | fuel+1, i =>
    let pre : List Action :=
      [Action.sleepTimer (secs_until_3 (clock i)), Action.pollPlayer]
    let p := polls i
    match dictGet p.ownership "ownership_type" with
    | Except.error e => (pre, LoopResult.exn e)
    | Except.ok ow =>
      if ow = "waivers" then
        let rest := add_until_done team_id clock polls adds fuel (i+1)
        (pre ++ Action.sleepTimer 10 :: rest.1, rest.2)
      else if ow = "team" then
        match dictGet p.ownership "owner_team_key" with
        | Except.error e => (pre, LoopResult.exn e)
        | Except.ok k =>
          if k = team_id then (pre, LoopResult.returned "owned")
          else (pre, LoopResult.returned "taken")
      else
        match adds i with
        | some _ =>
          let rest := add_until_done team_id clock polls adds fuel (i+1)
          (pre ++ Action.claimWrite :: Action.sleepTimer 1 :: rest.1, rest.2)
        | none =>
          let rest := add_until_done team_id clock polls adds fuel (i+1)
          (pre ++ Action.claimWrite :: rest.1, rest.2)

/-- The in-memory credential state of `YahooApi` (`self.access`,
`self.refresh`). -/
structure AuthState where
  access : String
  refresh : String
deriving DecidableEq

/-- The response of the token-renewal POST to
`https://api.login.yahoo.com/oauth2/get_token`: status, body text, and the
decoded JSON body (`resp.json()`), from which `access_token` is read. -/
structure RenewResp where
  status_code : Int
  text : String
  body : Dict

/-- What one wrapped call produces: the value returned or exception raised,
the credential state afterwards, how many renewal POSTs were made, and how
many times the wrapped function was invoked. -/
structure WrapOutcome (α : Type) where
  result : Except String α
  final : AuthState
  renewCount : Nat
  funcCalls : Nat

/-- The `with_authorization` decorator (freeagent.py lines 14-58) around a
call `func` whose behaviour depends on the credential state.  `renewResp`
is the response the renewal POST would return.  The source: calls `func`;
on an exception whose text does not contain `'token_expired'`, re-raises
it; otherwise performs exactly one renewal POST — on a non-200 status it
raises `'unable to get new token:' + resp.text` (leaving `self.access` and
`self.refresh` untouched), on a 200 it overwrites `self.access` with the
body's `access_token` (leaving `self.refresh` untouched) and calls `func`
once more, whose result — value or exception — is final (no further
`try`). -/
def with_authorization {α : Type} (func : AuthState → Except String α)
    (renewResp : RenewResp) (st : AuthState) : WrapOutcome α :=
  match func st with
  | Except.ok v => ⟨Except.ok v, st, 0, 1⟩
  | Except.error e =>
    if strContains e "token_expired" = false then
      ⟨Except.error e, st, 0, 1⟩
    else if renewResp.status_code ≠ 200 then
      ⟨Except.error ("unable to get new token:" ++ renewResp.text), st, 1, 1⟩
    else
      match dictGet renewResp.body "access_token" with
      | Except.error ke => ⟨Except.error ke, st, 1, 1⟩
      | Except.ok tok =>
        let st2 : AuthState := ⟨tok, st.refresh⟩
        ⟨func st2, st2, 1, 2⟩

/-- The `__main__` campaign loop (freeagent.py lines 206-209): for each
candidate in order run `add_until_done` with the same `drop` identifier,
breaking as soon as one returns `'owned'`.  `sched p drop` is the string
`add_until_done` returns for candidate `p`; the trace records each
attempt as `(candidate, drop passed, status)`. -/
def campaign (sched : String → Option String → String) (drop : Option String) :
    List String → List (String × Option String × String)
  | [] => []
  | p :: rest =>
    let status := sched p drop
    if status = "owned" then [(p, drop, status)]
    else (p, drop, status) :: campaign sched drop rest

/-- A clock reading inside the 3am-7am polling window (04:00:00), used as a
concrete environment by several examples. -/
def insideWindow : PyDateTime := ⟨0, 4 * 3600⟩

/-- C1: in every polling cycle that obtains an ownership record: a
`"waivers"` ownership type makes the scheduler sleep 10 and loop back to
the next iteration without a claim write; a `"team"` type terminates with
`'owned'` when the owning team key equals `team_id` and with `'taken'`
otherwise; any other type leads to a claim write. -/
theorem claim_C1 (team_id : String) (clock : Nat → PyDateTime)
    (polls : Nat → Player) (adds : Nat → Option String) (fuel i : Nat)
    (ow : String)
    (hrec : dictGet (polls i).ownership "ownership_type" = Except.ok ow) :
    (ow = "waivers" →
      add_until_done team_id clock polls adds (fuel+1) i =
        ([Action.sleepTimer (secs_until_3 (clock i)), Action.pollPlayer,
            Action.sleepTimer 10]
          ++ (add_until_done team_id clock polls adds fuel (i+1)).1,
         (add_until_done team_id clock polls adds fuel (i+1)).2) ∧
      Action.claimWrite ∉
        ([Action.sleepTimer (secs_until_3 (clock i)), Action.pollPlayer,
            Action.sleepTimer 10] : List Action)) ∧
    (∀ k, ow = "team" →
      dictGet (polls i).ownership "owner_team_key" = Except.ok k →
      (k = team_id →
        add_until_done team_id clock polls adds (fuel+1) i =
          ([Action.sleepTimer (secs_until_3 (clock i)), Action.pollPlayer],
           LoopResult.returned "owned")) ∧
      (k ≠ team_id →
        add_until_done team_id clock polls adds (fuel+1) i =
          ([Action.sleepTimer (secs_until_3 (clock i)), Action.pollPlayer],
           LoopResult.returned "taken"))) ∧
    (ow ≠ "waivers" → ow ≠ "team" →
      Action.claimWrite ∈ (add_until_done team_id clock polls adds (fuel+1) i).1) := by
  refine ⟨?_, ?_, ?_⟩
  · intro hw
    subst hw
    exact ⟨by simp [add_until_done, hrec], by simp⟩
  · intro k ht hk
    subst ht
    constructor
    · intro he
      subst he
      simp [add_until_done, hrec, hk]
    · intro hne
      simp [add_until_done, hrec, hk, hne]
  · intro h1 h2
    cases hadd : adds i <;> simp [add_until_done, hrec, h1, h2, hadd]

/-- C1 witness: a concrete cycle whose record says `"waivers"` sleeps 10 and
continues into the next iteration (which here runs out of fuel). -/
theorem claim_C1_witness :
    dictGet (Player.mk "p1" "Some Name" [("ownership_type", "waivers")]).ownership
        "ownership_type" = Except.ok "waivers" ∧
    add_until_done "t1" (fun _ => insideWindow)
        (fun _ => Player.mk "p1" "Some Name" [("ownership_type", "waivers")])
        (fun _ => none) 1 0 =
      ([Action.sleepTimer 0, Action.pollPlayer, Action.sleepTimer 10],
       LoopResult.outOfFuel) := by
  refine ⟨rfl, ?_⟩
  have h := (claim_C1 "t1" (fun _ => insideWindow)
      (fun _ => Player.mk "p1" "Some Name" [("ownership_type", "waivers")])
      (fun _ => none) 0 0 "waivers" rfl).1 rfl
  simpa [add_until_done, insideWindow, secs_until_3, toSecs, td_seconds] using h.1

/-- C3 counterexample: with a player that polls as a free agent every
iteration and a claim write that succeeds every time, two iterations of the
loop issue two claim writes and reach no terminal state — the scheduler
does not transition to `Resolved` after the first successful write and does
issue a second claim write. -/
theorem claim_C3_counterexample :
    ((add_until_done "t1" (fun _ => insideWindow)
        (fun _ => Player.mk "p9" "Free Agent" [("ownership_type", "freeagents")])
        (fun _ => none) 2 0).1.count Action.claimWrite = 2) ∧
    (add_until_done "t1" (fun _ => insideWindow)
        (fun _ => Player.mk "p9" "Free Agent" [("ownership_type", "freeagents")])
        (fun _ => none) 2 0).2 = LoopResult.outOfFuel := by
  constructor
  · rfl
  · rfl

/-- C3 amended: when the claim write returns successfully the scheduler does
not treat the claim as resolved — it falls out of the `try` block and loops
back to poll again at the next iteration (and can issue further claim
writes there); `'owned'` is only ever returned by a later poll reporting the
target team as owner. -/
theorem claim_C3_amended (team_id : String) (clock : Nat → PyDateTime)
    (polls : Nat → Player) (adds : Nat → Option String) (fuel i : Nat)
    (ow : String)
    (hrec : dictGet (polls i).ownership "ownership_type" = Except.ok ow)
    (h1 : ow ≠ "waivers") (h2 : ow ≠ "team") (hadd : adds i = none) :
    add_until_done team_id clock polls adds (fuel+1) i =
      ([Action.sleepTimer (secs_until_3 (clock i)), Action.pollPlayer,
          Action.claimWrite]
        ++ (add_until_done team_id clock polls adds fuel (i+1)).1,
       (add_until_done team_id clock polls adds fuel (i+1)).2) := by
  simp [add_until_done, hrec, h1, h2, hadd]

/-- C3 amended witness: a concrete successful claim write is followed by the
next iteration of the loop (which here, polling the player as now owned by
the target team, returns `'owned'`). -/
theorem claim_C3_amended_witness :
    dictGet (Player.mk "p9" "Free Agent" [("ownership_type", "freeagents")]).ownership
        "ownership_type" = Except.ok "freeagents" ∧
    add_until_done "t1" (fun _ => insideWindow)
        (fun i => if i = 0 then
            Player.mk "p9" "Free Agent" [("ownership_type", "freeagents")]
          else
            Player.mk "p9" "Free Agent"
              [("ownership_type", "team"), ("owner_team_key", "t1")])
        (fun _ => none) 2 0 =
      ([Action.sleepTimer 0, Action.pollPlayer, Action.claimWrite,
        Action.sleepTimer 0, Action.pollPlayer],
       LoopResult.returned "owned") := by
  refine ⟨rfl, ?_⟩
  have h := claim_C3_amended "t1" (fun _ => insideWindow)
      (fun i => if i = 0 then
          Player.mk "p9" "Free Agent" [("ownership_type", "freeagents")]
        else
          Player.mk "p9" "Free Agent"
            [("ownership_type", "team"), ("owner_team_key", "t1")])
      (fun _ => none) 1 0 "freeagents" rfl (by decide) (by decide) rfl
  rw [h]
  rfl

/-- C5 counterexample: a decoded payload whose `ownership` dictionary lacks
an `ownership_type` key does not take the free-agent branch: the lookup
raises `KeyError` and the cycle fails without any claim write, contradicting
the claim that absence of an ownership type yields `FreeAgent`. -/
theorem claim_C5_counterexample :
    (add_until_done "t1" (fun _ => insideWindow)
        (fun _ => Player.mk "p2" "No Type" [("waiver_date", "2020-01-01")])
        (fun _ => none) 1 0).2 = LoopResult.exn "KeyError: ownership_type" ∧
    Action.claimWrite ∉ (add_until_done "t1" (fun _ => insideWindow)
        (fun _ => Player.mk "p2" "No Type" [("waiver_date", "2020-01-01")])
        (fun _ => none) 1 0).1 := by
  constructor
  · rfl
  · decide

/-- C5 amended: a payload whose ownership type is present with any value
other than `"waivers"` or `"team"` takes the free-agent branch and proceeds
to a claim write; a payload from which the ownership type is absent instead
raises `KeyError` and the cycle ends in that uncaught exception. -/
theorem claim_C5_amended (team_id : String) (clock : Nat → PyDateTime)
    (polls : Nat → Player) (adds : Nat → Option String) (fuel i : Nat) :
    (∀ ow, dictGet (polls i).ownership "ownership_type" = Except.ok ow →
      ow ≠ "waivers" → ow ≠ "team" →
      Action.claimWrite ∈ (add_until_done team_id clock polls adds (fuel+1) i).1) ∧
    (∀ e, dictGet (polls i).ownership "ownership_type" = Except.error e →
      add_until_done team_id clock polls adds (fuel+1) i =
        ([Action.sleepTimer (secs_until_3 (clock i)), Action.pollPlayer],
         LoopResult.exn e)) := by
  constructor
  · intro ow hrec h1 h2
    cases hadd : adds i <;> simp [add_until_done, hrec, h1, h2, hadd]
  · intro e hrec
    simp [add_until_done, hrec]

/-- C5 amended witness: a concrete `"freeagents"` ownership type leads to a
claim write. -/
theorem claim_C5_amended_witness :
    dictGet (Player.mk "p9" "Free Agent" [("ownership_type", "freeagents")]).ownership
        "ownership_type" = Except.ok "freeagents" ∧
    Action.claimWrite ∈ (add_until_done "t1" (fun _ => insideWindow)
        (fun _ => Player.mk "p9" "Free Agent" [("ownership_type", "freeagents")])
        (fun _ => none) 1 0).1 :=
  ⟨rfl, (claim_C5_amended "t1" (fun _ => insideWindow)
      (fun _ => Player.mk "p9" "Free Agent" [("ownership_type", "freeagents")])
      (fun _ => none) 0 0).1 "freeagents" rfl (by decide) (by decide)⟩

/-- C4: a wrapped call that fails with text containing `token_expired`
triggers exactly one renewal and exactly one retry, whose result — value or
error — is final; a failure without that substring propagates unchanged with
no renewal and no retry; on every input the wrapper performs at most one
renewal and at most two invocations of the wrapped call. -/
theorem claim_C4 {α : Type} (func : AuthState → Except String α)
    (r : RenewResp) (st : AuthState) :
    (∀ e tok, func st = Except.error e →
      strContains e "token_expired" = true →
      r.status_code = 200 →
      dictGet r.body "access_token" = Except.ok tok →
      (with_authorization func r st).renewCount = 1 ∧
      (with_authorization func r st).funcCalls = 2 ∧
      (with_authorization func r st).result = func ⟨tok, st.refresh⟩) ∧
    (∀ e, func st = Except.error e →
      strContains e "token_expired" = false →
      (with_authorization func r st).result = Except.error e ∧
      (with_authorization func r st).renewCount = 0 ∧
      (with_authorization func r st).funcCalls = 1) ∧
    (with_authorization func r st).renewCount ≤ 1 ∧
    (with_authorization func r st).funcCalls ≤ 2 := by
  refine ⟨?_, ?_, ?_⟩
  · intro e tok hf hsub h200 htok
    simp [with_authorization, hf, hsub, h200, htok]
  · intro e hf hsub
    simp [with_authorization, hf, hsub]
  · cases hf : func st with
    | ok v => simp [with_authorization, hf]
    | error e =>
      simp only [with_authorization, hf]
      split
      · exact ⟨by simp, by simp⟩
      · split
        · exact ⟨by simp, by simp⟩
        · cases htok : dictGet r.body "access_token" <;> simp [htok]

/-- C4 witness: a concrete call failing with `token_expired` in its text,
with a 200 renewal carrying a fresh token, is renewed once and retried once,
and the retry's value is returned. -/
theorem claim_C4_witness :
    (fun s : AuthState =>
        if s.access = "tok2" then Except.ok 7 else Except.error "err token_expired")
      (AuthState.mk "tok1" "ref1") = Except.error "err token_expired" ∧
    (with_authorization
        (fun s : AuthState =>
          if s.access = "tok2" then Except.ok 7 else Except.error "err token_expired")
        (RenewResp.mk 200 "" [("access_token", "tok2")])
        (AuthState.mk "tok1" "ref1")).renewCount = 1 ∧
    (with_authorization
        (fun s : AuthState =>
          if s.access = "tok2" then Except.ok 7 else Except.error "err token_expired")
        (RenewResp.mk 200 "" [("access_token", "tok2")])
        (AuthState.mk "tok1" "ref1")).funcCalls = 2 ∧
    (with_authorization
        (fun s : AuthState =>
          if s.access = "tok2" then Except.ok 7 else Except.error "err token_expired")
        (RenewResp.mk 200 "" [("access_token", "tok2")])
        (AuthState.mk "tok1" "ref1")).result =
      (fun s : AuthState =>
          if s.access = "tok2" then Except.ok 7 else Except.error "err token_expired")
        (AuthState.mk "tok2" "ref1") := by
  refine ⟨rfl, ?_⟩
  exact (claim_C4
      (fun s : AuthState =>
        if s.access = "tok2" then Except.ok 7 else Except.error "err token_expired")
      (RenewResp.mk 200 "" [("access_token", "tok2")])
      (AuthState.mk "tok1" "ref1")).1
    "err token_expired" "tok2" rfl (by decide) rfl rfl

/-- C8: under a wrapped call that failed with `token_expired`, a renewal
response with status other than 200 makes the wrapper raise
`unable to get new token:` followed by the response body, with the
in-memory credentials unchanged and no retry of the call; a 200 renewal
response replaces the access token with the body's `access_token` and
leaves the refresh token unchanged. -/
theorem claim_C8 {α : Type} (func : AuthState → Except String α)
    (r : RenewResp) (st : AuthState) (e : String)
    (hf : func st = Except.error e)
    (hsub : strContains e "token_expired" = true) :
    (r.status_code ≠ 200 →
      (with_authorization func r st).result
        = Except.error ("unable to get new token:" ++ r.text) ∧
      (with_authorization func r st).final = st ∧
      (with_authorization func r st).funcCalls = 1) ∧
    (∀ tok, r.status_code = 200 →
      dictGet r.body "access_token" = Except.ok tok →
      (with_authorization func r st).final = AuthState.mk tok st.refresh) := by
  constructor
  · intro hne
    simp [with_authorization, hf, hsub, hne]
  · intro tok h200 htok
    simp [with_authorization, hf, hsub, h200, htok]

/-- C8 witness: a concrete rejected renewal (status 401) propagates the
fatal error, leaves the credentials untouched and performs no retry; the
same failing call with a 200 renewal replaces only the access token. -/
theorem claim_C8_witness :
    (fun _ : AuthState => (Except.error "err token_expired" : Except String Nat))
      (AuthState.mk "tok1" "ref1") = Except.error "err token_expired" ∧
    ((with_authorization
        (fun _ : AuthState => (Except.error "err token_expired" : Except String Nat))
        (RenewResp.mk 401 "bad refresh" [])
        (AuthState.mk "tok1" "ref1")).result
      = Except.error ("unable to get new token:" ++ "bad refresh") ∧
     (with_authorization
        (fun _ : AuthState => (Except.error "err token_expired" : Except String Nat))
        (RenewResp.mk 401 "bad refresh" [])
        (AuthState.mk "tok1" "ref1")).final = AuthState.mk "tok1" "ref1" ∧
     (with_authorization
        (fun _ : AuthState => (Except.error "err token_expired" : Except String Nat))
        (RenewResp.mk 401 "bad refresh" [])
        (AuthState.mk "tok1" "ref1")).funcCalls = 1) ∧
    (with_authorization
        (fun _ : AuthState => (Except.error "err token_expired" : Except String Nat))
        (RenewResp.mk 200 "" [("access_token", "tok2")])
        (AuthState.mk "tok1" "ref1")).final = AuthState.mk "tok2" "ref1" := by
  refine ⟨rfl, ?_, ?_⟩
  · exact (claim_C8
      (fun _ : AuthState => (Except.error "err token_expired" : Except String Nat))
      (RenewResp.mk 401 "bad refresh" [])
      (AuthState.mk "tok1" "ref1") "err token_expired" rfl (by decide)).1
      (by decide)
  · exact (claim_C8
      (fun _ : AuthState => (Except.error "err token_expired" : Except String Nat))
      (RenewResp.mk 200 "" [("access_token", "tok2")])
      (AuthState.mk "tok1" "ref1") "err token_expired" rfl (by decide)).2
      "tok2" rfl rfl

/-- C9: the campaign runner attempts candidates in list order, passing the
same unchanged drop identifier to every attempt; a candidate yielding
`'owned'` ends the campaign with no later candidate attempted; a candidate
yielding `'taken'` is followed by the rest of the list; every attempt uses
the given drop identifier and a candidate from the list, and the attempted
candidates are exactly an initial segment of the list in order. -/
theorem claim_C9 (sched : String → Option String → String)
    (drop : Option String) :
    (∀ p rest, sched p drop = "owned" →
      campaign sched drop (p :: rest) = [(p, drop, "owned")]) ∧
    (∀ p rest, sched p drop = "taken" →
      campaign sched drop (p :: rest)
        = (p, drop, "taken") :: campaign sched drop rest) ∧
    (∀ l entry, entry ∈ campaign sched drop l →
      entry.2.1 = drop ∧ entry.1 ∈ l) ∧
    (∀ l, (campaign sched drop l).map (fun entry => entry.1)
        = l.take (campaign sched drop l).length) := by
  refine ⟨?_, ?_, ?_, ?_⟩
  · intro p rest hp
    simp [campaign, hp]
  · intro p rest hp
    rw [campaign, hp]
    simp
  · intro l
    induction l with
    | nil => intro entry h; simp [campaign] at h
    | cons p rest ih =>
      intro entry h
      rw [campaign] at h
      by_cases hp : sched p drop = "owned"
      · rw [if_pos hp] at h
        simp at h
        subst h
        simp
      · rw [if_neg hp] at h
        rcases List.mem_cons.mp h with h1 | h2
        · subst h1
          simp
        · rcases ih entry h2 with ⟨hd, hm⟩
          exact ⟨hd, List.mem_cons_of_mem _ hm⟩
  · intro l
    induction l with
    | nil => simp [campaign]
    | cons p rest ih =>
      rw [campaign]
      by_cases hp : sched p drop = "owned"
      · rw [if_pos hp]
        simp
      · rw [if_neg hp]
        simpa using ih

/-- C9 witness: a concrete campaign over three candidates where the first is
taken and the second is owned attempts exactly the first two, in order, with
the same drop identifier. -/
theorem claim_C9_witness :
    (fun p _ : Option String => if p = "p2" then "owned" else "taken") "p1"
        (some "d") = "taken" ∧
    (fun p _ : Option String => if p = "p2" then "owned" else "taken") "p2"
        (some "d") = "owned" ∧
    campaign (fun p _ => if p = "p2" then "owned" else "taken") (some "d")
        ["p1", "p2", "p3"]
      = [("p1", some "d", "taken"), ("p2", some "d", "owned")] := by
  refine ⟨by decide, by decide, ?_⟩
  have h1 := (claim_C9 (fun p _ => if p = "p2" then "owned" else "taken")
      (some "d")).2.1 "p1" ["p2", "p3"] (by decide)
  have h2 := (claim_C9 (fun p _ => if p = "p2" then "owned" else "taken")
      (some "d")).1 "p2" ["p3"] (by decide)
  rw [h1, h2]

/-- C2: for any date, at 02:59:29 local time the window check computes a
positive sleep (polling withheld); at 02:59:31 and at 06:59:59 it computes
a zero sleep (polling proceeds immediately); at 07:00:01 it computes a
positive sleep again, equal to the seconds until the next day's 02:59:30. -/
theorem claim_C2 (d : Int) :
    0 < secs_until_3 ⟨d, 2 * 3600 + 59 * 60 + 29⟩ ∧
    secs_until_3 ⟨d, 2 * 3600 + 59 * 60 + 31⟩ = 0 ∧
    secs_until_3 ⟨d, 6 * 3600 + 59 * 60 + 59⟩ = 0 ∧
    0 < secs_until_3 ⟨d, 7 * 3600 + 1⟩ ∧
    secs_until_3 ⟨d, 7 * 3600 + 1⟩ =
      ((d + 1) * 86400 + (2 * 3600 + 59 * 60 + 30)) - toSecs ⟨d, 7 * 3600 + 1⟩ := by
  refine ⟨?_, ?_, ?_, ?_, ?_⟩ <;>
    · simp only [secs_until_3, toSecs, td_seconds]
      split <;> (try split) <;> omega

/-- C6: the claim says non-2xx responses raise an error carrying the body
and 2xx responses are returned, uniformly for GET and POST.  The POST path
does this, but every GET call raises `NameError` because the response is
never bound to `resp`: at the failing input `is_post = False` with a 200
response the code neither returns the response nor raises an error carrying
the body. -/
theorem claim_C6 :
    make_request false ⟨200, "ok"⟩ ⟨200, "ok"⟩
      = Except.error (PyError.nameError "resp") ∧
    make_request false ⟨404, "err"⟩ ⟨404, "err"⟩
      = Except.error (PyError.nameError "resp") ∧
    make_request true ⟨200, "ok"⟩ ⟨200, "ok"⟩ = Except.ok ⟨200, "ok"⟩ ∧
    make_request true ⟨404, "err"⟩ ⟨404, "err"⟩
      = Except.error (PyError.exn "err") := by
  refine ⟨rfl, rfl, ?_, ?_⟩ <;> simp [make_request]

/-- C7: decoding a scalar single-player node and decoding a one-element
sequence node holding the same player entry produce identical
`(player_key, name, record)` results from `player_info`. -/
theorem claim_C7 (p : Player) :
    player_info (PlayerNode.scalar p) = player_info (PlayerNode.seq [p]) := rfl

/-- C10: for every non-POST invocation of `make_request` the GET response is
never bound to the local `resp`, so the call raises `NameError` before the
status check or the return — the read success path is unreachable for every
input. -/
theorem claim_C10 (postResp getResp : HttpResp) :
    make_request false postResp getResp
      = Except.error (PyError.nameError "resp") := rfl

end FreeAgent
